import Mathlib

/-!
Verification development for the rare-bridge content platform.

The definitions below are a shallow embedding of the repository's code:
the `knowledge_documents` SQL schema and its `search_knowledge_documents`
and `increment_view_count` functions (README setup SQL), the client
request layer `json` helper in its two variants (`frontend/lib/api.ts`
and the request-tracking variant), the mock `chatKnowledgeBase` reply
generator, and the `ChatUI` component's event handlers
(`handleFileUpload`, `send`, `handleFallbackChoice`) modelled as a state
machine over the component's React state.  The FastAPI backend is not
part of the sources; backend operations (`moderate`, document `get`,
search pagination) are modelled from the specification and marked so in
their doc comments.
-/

namespace RareBridge

/-- Document moderation status, from the SQL CHECK constraint
`status IN ('pending', 'approved', 'rejected')`. -/
inductive Status where
  | pending
  | approved
  | rejected
deriving DecidableEq, Repr

/-- Identity role, from the `profiles` schema
`role in ('member','admin')` plus the spec's unauthenticated guest. -/
inductive Role where
  | guest
  | member
  | admin
deriving DecidableEq, Repr

/-- An authenticated identity (a `profiles` row). -/
structure Identity where
  id : String
  email : Option String := none
  role : Role
deriving DecidableEq, Repr

/-- Source tag carried by assistant chat messages, as produced by the
api client mocks and consumed by `ChatUI`. -/
inductive Source where
  | knowledge_base
  | uploaded_document
  | rag_document
  | general
deriving DecidableEq, Repr

/-- A citation record attached to a chat message. -/
structure Citation where
  id : Option String := none
  title : String
  author : Option String := none
  page_number : Option Nat := none
deriving DecidableEq, Repr

/-- A chat message, per the `ChatMessage` shape used by `ChatUI` and the
api client: role, content, optional source tag, optional similarity
score, optional citations. -/
structure ChatMsg where
  role : String
  content : String
  source : Option Source := none
  similarity_score : Option Rat := none
  citations : List Citation := []
deriving DecidableEq, Repr

/-- A row of the `knowledge_documents` table (README setup SQL). -/
structure KnowledgeDoc where
  id : String
  title : String
  content : Option String := none
  document_url : Option String := none
  author_email : String
  author_name : Option String := none
  status : Status := .pending
  category : Option String := none
  tags : List String := []
  view_count : Nat := 0
  created_at : Nat := 0
  updated_at : Nat := 0
  approved_at : Option Nat := none
  approved_by : Option String := none
deriving DecidableEq, Repr

/-- The text that `search_knowledge_documents` indexes:
`kd.title || ' ' || COALESCE(kd.content, '')`. -/
def tsDocText (d : KnowledgeDoc) : String :=
  d.title ++ " " ++ d.content.getD ""

/-- A row returned by `search_knowledge_documents` (its RETURNS TABLE
projection: no status, no view_count, plus the computed relevance). -/
structure SearchRow where
  id : String
  title : String
  content : Option String
  document_url : Option String
  author_email : String
  author_name : Option String
  category : Option String
  tags : List String
  created_at : Nat
  relevance : Rat
deriving DecidableEq, Repr

/-- Projection of a document to a search row, with
`relevance := ts_rank(to_tsvector(title+content), plainto_tsquery(q))`;
the rank computation is external (Postgres), passed as `rank`. -/
def rowOf (rank : String → String → Rat) (q : String) (d : KnowledgeDoc) : SearchRow :=
  { id := d.id
    title := d.title
    content := d.content
    document_url := d.document_url
    author_email := d.author_email
    author_name := d.author_name
    category := d.category
    tags := d.tags
    created_at := d.created_at
    relevance := rank (tsDocText d) q }

/-- The WHERE clause of `search_knowledge_documents`:
`kd.status = 'approved' AND (search_query = '' OR tsvector @@ tsquery)`.
The full-text `@@` operator is external (Postgres), passed as `fts`. -/
def searchWhere (fts : String → String → Bool) (q : String) (d : KnowledgeDoc) : Bool :=
  d.status == .approved && (q == "" || fts (tsDocText d) q)

/-- The `ORDER BY relevance DESC, kd.created_at DESC` comparison:
row `a` may precede row `b`. -/
def rowLe (a b : SearchRow) : Bool :=
  decide (b.relevance < a.relevance) ||
    (decide (a.relevance = b.relevance) && decide (b.created_at ≤ a.created_at))

/-- The SQL function `search_knowledge_documents(search_query)` from the
README setup SQL: select the approved rows matching the query (empty
query matches everything approved), project them, and order by
relevance descending then created_at descending. -/
def search_knowledge_documents (fts : String → String → Bool)
    (rank : String → String → Rat) (store : List KnowledgeDoc)
    (search_query : String) : List SearchRow :=
  (((store.filter (searchWhere fts search_query)).map (rowOf rank search_query)).mergeSort rowLe)

/-- The SQL function `increment_view_count(doc_id)` from the README
setup SQL: `UPDATE knowledge_documents SET view_count = view_count + 1
WHERE id = doc_id`. -/
def increment_view_count (store : List KnowledgeDoc) (doc_id : String) : List KnowledgeDoc :=
  store.map fun d => if d.id == doc_id then { d with view_count := d.view_count + 1 } else d

/-! ### Backend operations modelled from the spec

The FastAPI backend (`backend/app`) is not among the sources; only its
client (`frontend/lib/api.ts`) and the database functions are.  The
operations below are modelled from the specification. -/

/-- Error taxonomy of the spec (section 7). -/
inductive ApiError where
  | ValidationError
  | NotFound
  | Forbidden
  | InvalidState
  | NotReady
  | UpstreamUnavailable
deriving DecidableEq, Repr

/-- A moderation action, as sent by `knowledge.moderate` in
`frontend/lib/api.ts` (`action: "approved" | "rejected"`). -/
inductive MAction where
  | approved
  | rejected
deriving DecidableEq, Repr

/-- Terminal status a moderation action assigns. -/
def MAction.toStatus : MAction → Status
  | .approved => .approved
  | .rejected => .rejected

/-- Modelled from the spec: the backend endpoint
`POST /knowledge/moderate/{id}` is in the FastAPI backend, which is not
under the sources.  Per spec 4.2: fail `Forbidden` unless the actor is
admin, `NotFound` if the id is absent, `InvalidState` unless the
document is currently `pending`; otherwise set the terminal status,
`approved_at`/`approved_by` on approve, and `updated_at`
(see `moderate`). -/
def moderatedDoc (d : KnowledgeDoc) (action : MAction) (actor : Identity)
    (now : Nat) : KnowledgeDoc :=
  { d with
    status := action.toStatus
    updated_at := now
    approved_at := if action = .approved then some now else d.approved_at
    approved_by := if action = .approved then some actor.id else d.approved_by }

/-- Modelled from the spec: the moderation transition itself (see the
doc comment of `moderatedDoc` for the missing backend endpoint
`POST /knowledge/moderate/{id}`): `Forbidden` unless the actor is
admin, `NotFound` if the id is absent, `InvalidState` unless the
document is currently `pending`; otherwise rewrite the document. -/
def moderate (store : List KnowledgeDoc) (documentId : String)
    (action : MAction) (actor : Identity) (now : Nat) :
    Except ApiError (List KnowledgeDoc × KnowledgeDoc) :=
  if actor.role ≠ .admin then .error .Forbidden
  else
    match store.find? (fun x => x.id == documentId) with
    | none => .error .NotFound
    | some d =>
      if d.status ≠ .pending then .error .InvalidState
      else
        let d' := moderatedDoc d action actor now
        .ok (store.map fun x => if x.id == documentId then d' else x, d')

/-- Visibility gate for an individual document fetch: approved, or the
requester is an admin, or the requester is the author. -/
def canView (d : KnowledgeDoc) (req : Option Identity) : Bool :=
  d.status == .approved ||
    (match req with
     | some r => r.role == .admin || r.email == some d.author_email
     | none => false)

/-- Modelled from the spec: the backend endpoint
`GET /knowledge/document/{id}` is in the FastAPI backend, which is not
under the sources.  Per spec 4.1: `NotFound` if the id is absent;
increments `view_count` by 1 (via the database function
`increment_view_count`, which is among the sources) if and only if the
caller is permitted to see the document; a document the caller may not
see behaves as absent. -/
def getDocument (store : List KnowledgeDoc) (id : String) (req : Option Identity) :
    Except ApiError (KnowledgeDoc × List KnowledgeDoc) :=
  match store.find? (fun x => x.id == id) with
  | none => .error .NotFound
  | some d =>
    if canView d req then
      .ok ({ d with view_count := d.view_count + 1 }, increment_view_count store id)
    else
      .error .NotFound

/-- Paginated search response, per the `KnowledgeSearchResponse` shape
consumed by `frontend/lib/api.ts`. -/
structure KnowledgeSearchResponse where
  items : List SearchRow
  page : Nat
  per_page : Nat
  total : Nat
  total_pages : Nat
deriving DecidableEq, Repr

/-- Modelled from the spec: the backend endpoint
`GET /knowledge/search` is in the FastAPI backend, which is not under
the sources.  Per spec 4.1: 1-indexed page, `per_page` clamped to
1..100, rows from the database function `search_knowledge_documents`
(which is among the sources), total count and total page count beside
the page slice. -/
def knowledgeSearch (fts : String → String → Bool)
    (rank : String → String → Rat) (store : List KnowledgeDoc)
    (q : String) (page per_page : Nat) : KnowledgeSearchResponse :=
  let pp := max 1 (min per_page 100)
  let pg := max 1 page
  let rows := search_knowledge_documents fts rank store q
  { items := (rows.drop ((pg - 1) * pp)).take pp
    page := pg
    per_page := pp
    total := rows.length
    total_pages := (rows.length + pp - 1) / pp }

/-- Read-only search, as an operation on the store: the database
function contains a single SELECT and no UPDATE, so the store passes
through unchanged. -/
def knowledgeSearchOp (fts : String → String → Bool)
    (rank : String → String → Rat) (store : List KnowledgeDoc)
    (q : String) (page per_page : Nat) :
    KnowledgeSearchResponse × List KnowledgeDoc :=
  (knowledgeSearch fts rank store q page per_page, store)

/-- Modelled from the spec: `listPending` (backend, not under the
sources) is read-only and returns the documents with status pending. -/
def listPendingOp (store : List KnowledgeDoc) :
    List KnowledgeDoc × List KnowledgeDoc :=
  (store.filter (fun d => d.status == .pending), store)

/-! ### The client request layer (`json` helper)

Two variants are among the sources: the one in `frontend/lib/api.ts`
(15s default timeout, silent refresh-and-retry on 401) and the
request-tracking variant (5s default timeout, token cache, sign-out on
401).  A fetch call is modelled by its outcome: a response (status,
body-parse result, text body), an abort (the timeout fired), or a
network error. -/

/-- Outcome of one `fetch` call.  `jsonBody` is the result of
`res.json()`: a parsed value or a parse failure. -/
inductive FetchOutcome (T : Type) where
  | response (status : Nat) (jsonBody : Except String T) (textBody : String)
  | abortError
  | networkError (msg : String)
deriving Repr

/-- `Response.ok` of the fetch API: status in the range 200..299. -/
def okStatus (s : Nat) : Bool := 200 ≤ s && s < 300

/-- The message thrown when the request is aborted by the timeout:
`Request timed out after (timeoutMs)ms: (path)`. -/
def timeoutMessage (timeoutMs : Nat) (path : String) : String :=
  "Request timed out after " ++ toString timeoutMs ++ "ms: " ++ path

/-- The message thrown on a non-2xx response:
`(status) (path) (text ? "- " + text : "")`. -/
def httpErrorMessage (status : Nat) (path : String) (text : String) : String :=
  toString status ++ " " ++ path ++ " " ++ (if text == "" then "" else "- " ++ text)

/-- Observable outcome of running the `json` helper of
`frontend/lib/api.ts`: the value returned or error thrown, how many
fetch attempts were made, how many credential refreshes were made, and
whether the timeout timer was cleared (the `finally` block). -/
structure JsonRun (T : Type) where
  result : Except String T
  fetches : Nat
  refreshes : Nat
  timerCleared : Bool
deriving Repr

/-- The `json` helper of `frontend/lib/api.ts`: fetch once; on a 401
response refresh the session silently (a refresh failure is ignored)
and fetch exactly once more, succeeding only if the retry is 2xx; on a
2xx response return the parsed body; on any other response throw; on an
abort throw the timeout message; `clearTimeout` runs in `finally` on
every path.  `o1` is the outcome of the first fetch, `o2` of the retry
fetch (consulted only on the 401 path). -/
def json_fetch {T : Type} (o1 o2 : FetchOutcome T) (timeoutMs : Nat) (path : String) :
    JsonRun T :=
  match o1 with
  | .abortError =>
    { result := .error (timeoutMessage timeoutMs path), fetches := 1, refreshes := 0,
      timerCleared := true }
  | .networkError e =>
    { result := .error e, fetches := 1, refreshes := 0, timerCleared := true }
  | .response s body text =>
    if s == 401 then
      match o2 with
      | .abortError =>
        { result := .error (timeoutMessage timeoutMs path), fetches := 2, refreshes := 1,
          timerCleared := true }
      | .networkError e =>
        { result := .error e, fetches := 2, refreshes := 1, timerCleared := true }
      | .response s2 body2 text2 =>
        if okStatus s2 then
          { result := body2, fetches := 2, refreshes := 1, timerCleared := true }
        else
          { result := .error (httpErrorMessage s2 path text2), fetches := 2, refreshes := 1,
            timerCleared := true }
    else if okStatus s then
      { result := body, fetches := 1, refreshes := 0, timerCleared := true }
    else
      { result := .error (httpErrorMessage s path text), fetches := 1, refreshes := 0,
        timerCleared := true }

/-- Observable outcome of the request-tracking `json` variant: the
value or error, the number of fetch attempts, whether the session was
cleared (`signOut`), and whether the timeout timer was cleared. -/
structure JsonRun2 (T : Type) where
  result : Except String T
  fetches : Nat
  signedOut : Bool
  timerCleared : Bool
deriving Repr

/-- The request-tracking `json` variant: fetch once; on a 401 response
sign the session out and throw a session-expired error without any
retry; on a 2xx response return the parsed body; otherwise throw; on an
abort throw the timeout message. -/
def json_tracking {T : Type} (o : FetchOutcome T) (timeoutMs : Nat) (path : String) :
    JsonRun2 T :=
  match o with
  | .abortError =>
    { result := .error (timeoutMessage timeoutMs path), fetches := 1, signedOut := false,
      timerCleared := true }
  | .networkError e =>
    { result := .error e, fetches := 1, signedOut := false, timerCleared := true }
  | .response s body text =>
    if s == 401 then
      { result := .error "Your session has expired. Please log in again.", fetches := 1,
        signedOut := true, timerCleared := true }
    else if okStatus s then
      { result := body, fetches := 1, signedOut := false, timerCleared := true }
    else
      { result := .error (httpErrorMessage s path text), fetches := 1, signedOut := false,
        timerCleared := true }

/-- Whether a fetch outcome is a 401 response. -/
def is401 {T : Type} : FetchOutcome T → Bool
  | .response s _ _ => s == 401
  | _ => false

/-! ### The knowledge-base chat reply (mock path of `chatKnowledgeBase`)

The non-mock path posts to `/chat/knowledge-base`, handled by the
backend which is not among the sources; the mock path in the
request-tracking api client generates the reply from a drawn
similarity score and is embedded here with the score as a parameter. -/

/-- The mock reply of `api.chatKnowledgeBase`: when the similarity is
strictly above 0.7, a non-empty knowledge-base answer quoting the last
user turn, with the score and a citation; otherwise an empty-content
message carrying the score and no citations. -/
def chatKnowledgeBase (messages : List ChatMsg) (mockSimilarity : Rat) : ChatMsg :=
  let last := (messages.getLast?.map (fun m => m.content)).getD ""
  if (7 : Rat)/10 < mockSimilarity then
    { role := "assistant"
      content := "Based on our knowledge base: \"" ++ last ++
        "\"\n\n[This would be the RAG response from knowledge base vectors]"
      source := some .knowledge_base
      similarity_score := some mockSimilarity
      citations := [{ id := some "kb-1", title := "PKU Treatment Guidelines",
                      author := some "Dr. Sarah Johnson" }] }
  else
    { role := "assistant"
      content := ""
      source := some .knowledge_base
      similarity_score := some mockSimilarity
      citations := [] }

/-! ### The `ChatUI` component as a state machine

`ChatUI` keeps React state (input, transcript, mode, uploaded file and
document id, fallback-prompt flag, pending question) and three event
handlers (`handleFileUpload`, `send`, `handleFallbackChoice`) plus the
mode-toggle / remove-file / reset controls.  Each handler performs at
most one api call; a handler run is modelled as one atomic step taking
the call's outcome as an oracle argument and returning the new state
together with the list of api calls it issued. -/

/-- The chat mode selector of `ChatUI`. -/
inductive ChatMode where
  | knowledge_base
  | document_upload
deriving DecidableEq, Repr

/-- The response of `POST /docs/upload` used by `handleFileUpload`:
`{id, chunks_count, total_pages}`. -/
structure UploadOk where
  id : String
  chunks_count : Nat
  total_pages : Nat
deriving DecidableEq, Repr

/-- The React state of `ChatUI` (the transient `loading` and
`processingFile` flags are omitted: steps are atomic). -/
structure UiState where
  input : String
  messages : List ChatMsg
  mode : ChatMode
  uploadedFile : Option String
  uploadedDocumentId : Option String
  showFallbackPrompt : Bool
  pendingQuestion : String
deriving DecidableEq, Repr

/-- The initial `ChatUI` state. -/
def initState : UiState :=
  { input := ""
    messages := []
    mode := .knowledge_base
    uploadedFile := none
    uploadedDocumentId := none
    showFallbackPrompt := false
    pendingQuestion := "" }

/-- An api call issued by a `ChatUI` handler. -/
inductive ApiCall where
  | uploadDocumentForChat (filename : String)
  | chatWithDocument (documentId : String) (messages : List ChatMsg)
  | chatKnowledgeBase (messages : List ChatMsg)
  | getGeneralResponse (messages : List ChatMsg)
deriving DecidableEq, Repr

/-- A user/UI event, carrying the outcome of the api call the handler
will make (the oracle). -/
inductive UiEvent where
  | setInput (value : String)
  | switchMode (m : ChatMode)
  | removeFile
  | fileSelected (filename : String) (isPdf : Bool) (result : Except String UploadOk)
  | sendClick (resp : Except String ChatMsg)
  | fallbackClick (useGeneral : Bool) (resp : Except String ChatMsg)
deriving Repr

/-- JavaScript `String.prototype.trim`, modelled executably: strip
leading and trailing whitespace. -/
def jsTrim (s : String) : String :=
  String.mk (((s.data.dropWhile (fun c => c.isWhitespace)).reverse.dropWhile
    (fun c => c.isWhitespace)).reverse)

/-- JavaScript truthiness of the optional uploaded id: `null` and the
empty string are falsy. -/
def truthyOptStr : Option String → Bool
  | none => false
  | some v => v != ""

/-- The `disabled` condition of the send button and input field:
`(mode === "document_upload" && !uploadedDocumentId) || !input.trim()`
(the transient `loading` disjunct is omitted: steps are atomic). -/
def sendDisabled (s : UiState) : Bool :=
  (s.mode == .document_upload && !truthyOptStr s.uploadedDocumentId) || jsTrim s.input == ""

/-- Substring test modelling JavaScript `String.prototype.includes`. -/
def includesSub (s pat : String) : Bool := (s.splitOn pat).length != 1

/-- The error message chosen by the catch branch of `send`. -/
def sendErrorText (e : String) : String :=
  if includesSub e "timeout" then
    "The request timed out. Please try a shorter question or try again later."
  else if includesSub e "400" then
    "There was an issue with your request. Please check your input and try again."
  else if includesSub e "500" then
    "There\x27s a server error. Our team has been notified. Please try again in a few minutes."
  else
    "I\x27m sorry, I encountered an error processing your request. Please try again."

/-- The assistant message appended when a chat api call fails. -/
def sendErrorMsg (e : String) : ChatMsg := { role := "assistant", content := sendErrorText e }

/-- The generic error message of `handleFallbackChoice`. -/
def genericErrorMsg : ChatMsg :=
  { role := "assistant",
    content := "I\x27m sorry, I encountered an error processing your request. Please try again." }

/-- The system message appended after a successful upload. -/
def uploadSuccessMsg (filename : String) (r : UploadOk) : ChatMsg :=
  { role := "assistant"
    content := "Document \"" ++ filename ++ "\" uploaded and processed successfully! I\x27ve created "
      ++ toString r.chunks_count ++ " searchable chunks from " ++ toString r.total_pages
      ++ " pages. Now you can ask questions about this document."
    source := some .rag_document }

/-- `handleFileUpload`: reject non-PDF files without any call; call
`uploadDocumentForChat`; on success record file name and returned id
and reset the transcript to the system message; on failure leave the
state unchanged (an alert is shown). -/
def handleFileUpload (s : UiState) (filename : String) (isPdf : Bool)
    (result : Except String UploadOk) : UiState × List ApiCall :=
  if !isPdf then (s, [])
  else
    match result with
    | .ok r =>
      ({ s with
          uploadedFile := some filename
          uploadedDocumentId := some r.id
          messages := [uploadSuccessMsg filename r] },
       [.uploadDocumentForChat filename])
    | .error _ => (s, [.uploadDocumentForChat filename])

/-- The truthiness test `result.reply.similarity_score &&
result.reply.similarity_score < 0.7` of `send`: a score of 0 is falsy
in JavaScript, so it does not trigger the fallback prompt. -/
def lowConfidence (reply : ChatMsg) : Bool :=
  match reply.similarity_score with
  | some x => x != 0 && x < (7 : Rat)/10
  | none => false

/-- The assistant message shown with the fallback prompt. -/
def fallbackPromptMsg (reply : ChatMsg) : ChatMsg :=
  { role := "assistant"
    content := "I couldn\x27t find relevant information in our knowledge base for your question. Would you like me to provide a general response instead?"
    source := some .knowledge_base
    similarity_score := reply.similarity_score }

/-- `send`: ignore an all-whitespace input; append the user turn; in
`document_upload` mode with a truthy uploaded id call
`chatWithDocument` on that id, otherwise call `chatKnowledgeBase`; a
knowledge-base reply whose score is truthy and below 0.7 opens the
fallback prompt and stores the pending question instead of showing the
reply; an api failure appends an error message. -/
def send (s : UiState) (resp : Except String ChatMsg) : UiState × List ApiCall :=
  if jsTrim s.input == "" then (s, [])
  else
    let userMsg : ChatMsg := { role := "user", content := s.input }
    let msgs := s.messages ++ [userMsg]
    let currentInput := s.input
    let s0 := { s with input := "", messages := msgs }
    if s.mode == .document_upload && truthyOptStr s.uploadedDocumentId then
      let docId := s.uploadedDocumentId.getD ""
      match resp with
      | .ok reply => ({ s0 with messages := msgs ++ [reply] }, [.chatWithDocument docId msgs])
      | .error e =>
        ({ s0 with messages := msgs ++ [sendErrorMsg e] }, [.chatWithDocument docId msgs])
    else
      match resp with
      | .ok reply =>
        if lowConfidence reply then
          ({ s0 with
              pendingQuestion := currentInput
              showFallbackPrompt := true
              messages := msgs ++ [fallbackPromptMsg reply] },
           [.chatKnowledgeBase msgs])
        else
          ({ s0 with messages := msgs ++ [reply] }, [.chatKnowledgeBase msgs])
      | .error e =>
        ({ s0 with messages := msgs ++ [sendErrorMsg e] }, [.chatKnowledgeBase msgs])

/-- The disclaimer prepended when the caller declines the general
fallback and the re-queried knowledge-base match has content. -/
def disclaimerText : String :=
  "Here\x27s the closest information I found in our knowledge base, though it may not be a perfect match for your question:\n\n"

/-- The fixed message shown when the re-queried knowledge-base match
has empty content. -/
def kbNotFoundMsg : ChatMsg :=
  { role := "assistant"
    content := "I wasn\x27t able to find relevant information in our knowledge base for your question. You might want to try rephrasing your question or asking about a different topic."
    source := some .knowledge_base }

/-- `handleFallbackChoice`: close the prompt; re-send the pending
question either to `getGeneralResponse` (the caller accepted the
general fallback) or to `chatKnowledgeBase` (the caller declined); in
the declined case a reply with truthy content is shown with the
disclaimer prepended, an empty reply is replaced by the fixed
knowledge-base not-found message; an api failure appends the generic
error message; finally clear the pending question. -/
def handleFallbackChoice (s : UiState) (useGeneral : Bool)
    (resp : Except String ChatMsg) : UiState × List ApiCall :=
  let s0 := { s with showFallbackPrompt := false }
  let fallbackMessages := s.messages ++ [{ role := "user", content := s.pendingQuestion : ChatMsg }]
  let (s1, calls) :=
    if useGeneral then
      match resp with
      | .ok reply =>
        ({ s0 with messages := s0.messages ++ [reply] },
         [ApiCall.getGeneralResponse fallbackMessages])
      | .error _ =>
        ({ s0 with messages := s0.messages ++ [genericErrorMsg] },
         [ApiCall.getGeneralResponse fallbackMessages])
    else
      match resp with
      | .ok reply =>
        if reply.content != "" then
          ({ s0 with messages :=
              s0.messages ++ [{ reply with content := disclaimerText ++ reply.content }] },
           [ApiCall.chatKnowledgeBase fallbackMessages])
        else
          ({ s0 with messages := s0.messages ++ [kbNotFoundMsg] },
           [ApiCall.chatKnowledgeBase fallbackMessages])
      | .error _ =>
        ({ s0 with messages := s0.messages ++ [genericErrorMsg] },
         [ApiCall.chatKnowledgeBase fallbackMessages])
  ({ s1 with pendingQuestion := "" }, calls)

/-- One step of the `ChatUI` machine.  Events reach a handler only when
the rendered control is enabled: the file chooser exists only in
`document_upload` mode with no current file, the send button obeys
`sendDisabled`, the fallback buttons exist only while the prompt is
shown.  The mode toggle runs `resetChat`; Remove clears the uploaded
file, its id and the transcript. -/
def dispatch (s : UiState) (e : UiEvent) : UiState × List ApiCall :=
  match e with
  | .setInput v => ({ s with input := v }, [])
  | .switchMode m =>
    ({ s with
        mode := m
        messages := []
        uploadedFile := none
        uploadedDocumentId := none
        showFallbackPrompt := false
        pendingQuestion := "" }, [])
  | .removeFile =>
    ({ s with uploadedFile := none, uploadedDocumentId := none, messages := [] }, [])
  | .fileSelected filename isPdf result =>
    if s.mode == .document_upload && s.uploadedFile == none then
      handleFileUpload s filename isPdf result
    else (s, [])
  | .sendClick resp => if sendDisabled s then (s, []) else send s resp
  | .fallbackClick useGeneral resp =>
    if s.showFallbackPrompt then handleFallbackChoice s useGeneral resp else (s, [])

/-- Run a sequence of events from a state, collecting all api calls. -/
def runTrace : UiState → List UiEvent → UiState × List ApiCall
  | s, [] => (s, [])
  | s, e :: es =>
    let (s1, cs) := dispatch s e
    let (s2, cs') := runTrace s1 es
    (s2, cs ++ cs')

/-- The document ids returned by the successful PDF uploads of a trace. -/
def uploadedIdsOf (events : List UiEvent) : List String :=
  events.filterMap fun e =>
    match e with
    | .fileSelected _ isPdf (.ok r) => if isPdf then some r.id else none
    | _ => none

/-! ### Concrete fixtures used to evaluate the theorems -/

/-- A concrete admin identity. -/
def wAdmin : Identity := { id := "admin-1", email := some "a@x.com", role := .admin }

/-- A concrete freshly submitted (pending) document. -/
def wPendingDoc : KnowledgeDoc :=
  { id := "doc-1", title := "PKU Basics", author_email := "a@x.com" }

/-- A concrete approved document. -/
def wApprovedDoc : KnowledgeDoc :=
  { id := "doc-2", title := "Clinic Visit Checklist", author_email := "b@x.com",
    status := .approved, created_at := 10 }

/-- A concrete two-document store with distinct ids. -/
def wStore : List KnowledgeDoc := [wApprovedDoc, wPendingDoc]

/-- A concrete `ChatUI` state showing the fallback prompt. -/
def wFallbackState : UiState :=
  { initState with showFallbackPrompt := true, pendingQuestion := "q" }

/-- A concrete low-confidence knowledge-base reply with content. -/
def wReply : ChatMsg :=
  { role := "assistant", content := "closest match", source := some .knowledge_base,
    similarity_score := some ((1 : Rat)/2) }

/-- A concrete event trace: enter upload mode, upload a PDF, type a
question, send it. -/
def wUploadEvents : List UiEvent :=
  [UiEvent.switchMode .document_upload,
   UiEvent.fileSelected "f.pdf" true (Except.ok { id := "d1", chunks_count := 3, total_pages := 2 }),
   UiEvent.setInput "hi",
   UiEvent.sendClick (Except.ok { role := "assistant", content := "a" })]

/-! ### Helper lemmas -/

/-- `find?` over a conditional rewrite of matching elements: provided
the rewrite preserves the predicate, the first match is the rewritten
original first match. -/
theorem find?_map_ite {α : Type} (p : α → Bool) (g : α → α)
    (hg : ∀ d, p d = true → p (g d) = true) :
    ∀ l : List α, (l.map fun x => if p x then g x else x).find? p = (l.find? p).map g := by
  intro l
  induction l with
  | nil => simp
  | cons d t ih =>
    by_cases h : p d = true
    · simp [h, hg d h]
    · rw [Bool.not_eq_true] at h
      simp [h, ih]

/-- Elements not targeted by a conditional rewrite stay in the list. -/
theorem mem_map_ite_of_neg {α : Type} (p : α → Bool) (g : α → α) (l : List α) (x : α)
    (hx : x ∈ l) (hpx : p x = false) : x ∈ l.map fun y => if p y then g y else y :=
  List.mem_map.2 ⟨x, hx, by simp [hpx]⟩

/-- The search ordering in propositional form. -/
theorem rowLe_iff (a b : SearchRow) :
    rowLe a b = true ↔
      (b.relevance < a.relevance ∨
        (a.relevance = b.relevance ∧ b.created_at ≤ a.created_at)) := by
  simp [rowLe]

/-- The search ordering is transitive. -/
theorem rowLe_trans (a b c : SearchRow) (h1 : rowLe a b = true) (h2 : rowLe b c = true) :
    rowLe a c = true := by
  rw [rowLe_iff] at h1 h2 ⊢
  rcases h1 with h | ⟨e, hc⟩ <;> rcases h2 with h' | ⟨e', hc'⟩
  · exact Or.inl (h'.trans h)
  · exact Or.inl (e' ▸ h)
  · exact Or.inl (e ▸ h')
  · exact Or.inr ⟨e.trans e', hc'.trans hc⟩

/-- The search ordering is total. -/
theorem rowLe_total (a b : SearchRow) : (rowLe a b || rowLe b a) = true := by
  rw [Bool.or_eq_true, rowLe_iff, rowLe_iff]
  rcases lt_trichotomy a.relevance b.relevance with h | h | h
  · exact Or.inr (Or.inl h)
  · rcases Nat.le_total b.created_at a.created_at with hc | hc
    · exact Or.inl (Or.inr ⟨h, hc⟩)
    · exact Or.inr (Or.inr ⟨h.symm, hc⟩)
  · exact Or.inl (Or.inl h)

/-- Membership in the search result, unfolded through the sort. -/
theorem mem_search_iff (fts : String → String → Bool) (rank : String → String → Rat)
    (store : List KnowledgeDoc) (q : String) (r : SearchRow) :
    r ∈ search_knowledge_documents fts rank store q ↔
      ∃ d ∈ store, searchWhere fts q d = true ∧ rowOf rank q d = r := by
  unfold search_knowledge_documents
  rw [List.Perm.mem_iff (List.mergeSort_perm _ rowLe)]
  simp only [List.mem_map, List.mem_filter]
  constructor
  · rintro ⟨d, ⟨hd, hw⟩, hrow⟩
    exact ⟨d, hd, hw, hrow⟩
  · rintro ⟨d, hd, hw, hrow⟩
    exact ⟨d, ⟨hd, hw⟩, hrow⟩

/-- Where set only: `uploadedDocumentId` changes only when a successful
PDF upload event sets it to the returned id. -/
theorem dispatch_uploadedId (s : UiState) (e : UiEvent) (id : String)
    (h : (dispatch s e).1.uploadedDocumentId = some id) :
    s.uploadedDocumentId = some id ∨
      ∃ f r, e = UiEvent.fileSelected f true (Except.ok r) ∧ r.id = id := by
  cases e with
  | setInput v => exact Or.inl h
  | switchMode m => simp [dispatch] at h
  | removeFile => simp [dispatch] at h
  | fileSelected f isPdf result =>
    by_cases hg : (s.mode == ChatMode.document_upload && s.uploadedFile == none) = true
    · cases isPdf with
      | false => simp [dispatch, hg, handleFileUpload] at h; exact Or.inl h
      | true =>
        cases result with
        | ok r =>
          simp [dispatch, hg, handleFileUpload] at h
          exact Or.inr ⟨f, r, rfl, h⟩
        | error msg =>
          simp [dispatch, hg, handleFileUpload] at h
          exact Or.inl h
    · rw [Bool.not_eq_true] at hg
      simp [dispatch, hg] at h
      exact Or.inl h
  | sendClick resp =>
    by_cases hd : sendDisabled s = true
    · simp [dispatch, hd] at h; exact Or.inl h
    · rw [Bool.not_eq_true] at hd
      refine Or.inl ?_
      simp only [dispatch, hd, Bool.false_eq_true, if_false] at h
      unfold send at h
      split at h
      · exact h
      · split at h <;> (cases resp <;> simp_all) <;>
          (first | exact h | (split at h <;> exact h))
  | fallbackClick useGeneral resp =>
    by_cases hp : s.showFallbackPrompt = true
    · refine Or.inl ?_
      simp only [dispatch, hp, if_true] at h
      unfold handleFallbackChoice at h
      dsimp only at h
      split at h <;> (cases resp <;> simp_all) <;> (split at h <;> simp_all)
    · rw [Bool.not_eq_true] at hp
      simp [dispatch, hp] at h
      exact Or.inl h

/-- A `chatWithDocument` call can only be issued by an enabled send in
document-upload mode, and it carries the (truthy) uploaded id. -/
theorem dispatch_call_id (s : UiState) (e : UiEvent) (id : String) (msgs : List ChatMsg)
    (h : ApiCall.chatWithDocument id msgs ∈ (dispatch s e).2) :
    s.uploadedDocumentId = some id ∧ id ≠ "" ∧ s.mode = .document_upload := by
  cases e with
  | setInput v => simp [dispatch] at h
  | switchMode m => simp [dispatch] at h
  | removeFile => simp [dispatch] at h
  | fileSelected f isPdf result =>
    by_cases hg : (s.mode == ChatMode.document_upload && s.uploadedFile == none) = true
    · cases isPdf <;> cases result <;> simp [dispatch, hg, handleFileUpload] at h
    · rw [Bool.not_eq_true] at hg; simp [dispatch, hg] at h
  | fallbackClick useGeneral resp =>
    by_cases hp : s.showFallbackPrompt = true
    · simp only [dispatch, hp, if_true] at h
      unfold handleFallbackChoice at h
      dsimp only at h
      split at h <;> (cases resp <;> simp_all) <;> (split at h <;> simp_all)
    · rw [Bool.not_eq_true] at hp; simp [dispatch, hp] at h
  | sendClick resp =>
    by_cases hd : sendDisabled s = true
    · simp [dispatch, hd] at h
    · rw [Bool.not_eq_true] at hd
      simp only [dispatch, hd, Bool.false_eq_true, if_false] at h
      unfold send at h
      split at h
      · simp at h
      · cases hmode : s.mode with
        | knowledge_base =>
          rw [hmode] at h
          cases resp with
          | ok reply =>
            by_cases hl : lowConfidence reply = true
            · simp [hl] at h
            · rw [Bool.not_eq_true] at hl; simp [hl] at h
          | error e => simp at h
        | document_upload =>
          cases hid : s.uploadedDocumentId with
          | none =>
            rw [hmode, hid] at h
            simp only [truthyOptStr, Bool.and_false] at h
            cases resp with
            | ok reply =>
              by_cases hl : lowConfidence reply = true
              · simp [hl] at h
              · rw [Bool.not_eq_true] at hl; simp [hl] at h
            | error e => simp at h
          | some v =>
            rw [hmode, hid] at h
            by_cases hv : v = ""
            · subst hv
              simp only [truthyOptStr] at h
              cases resp with
              | ok reply =>
                by_cases hl : lowConfidence reply = true
                · simp [hl] at h
                · rw [Bool.not_eq_true] at hl; simp [hl] at h
              | error e => simp at h
            · have htr : truthyOptStr (some v) = true := by
                simp [truthyOptStr, hv]
              simp only [truthyOptStr] at h
              have hiv : id = v := by
                cases resp <;> simp [hv] at h <;> exact h.1
              exact ⟨by rw [hiv], by rw [hiv]; exact hv, rfl⟩

/-- Along any trace, a `chatWithDocument` call's id is either already
installed in the starting state or produced by a successful PDF upload
of the trace. -/
theorem runTrace_chatWithDocument :
    ∀ (events : List UiEvent) (s : UiState) (id : String) (msgs : List ChatMsg),
      ApiCall.chatWithDocument id msgs ∈ (runTrace s events).2 →
        s.uploadedDocumentId = some id ∨ id ∈ uploadedIdsOf events := by
  intro events
  induction events with
  | nil => intro s id msgs h; simp [runTrace] at h
  | cons e es ih =>
    intro s id msgs h
    simp only [runTrace, List.mem_append] at h
    rcases h with h | h
    · exact Or.inl (dispatch_call_id s e id msgs h).1
    · rcases ih (dispatch s e).1 id msgs h with h' | h'
      · rcases dispatch_uploadedId s e id h' with h'' | ⟨f, r, he, hr⟩
        · exact Or.inl h''
        · subst he
          exact Or.inr (by simp [uploadedIdsOf, hr])
      · refine Or.inr ?_
        have hsub : uploadedIdsOf es ⊆ uploadedIdsOf (e :: es) := by
          intro x hx
          simp only [uploadedIdsOf, List.filterMap_cons]
          split
          · exact hx
          · exact List.mem_cons_of_mem _ hx
        exact hsub h'

/-- General-response calls arise only from `handleFallbackChoice` with
`useGeneral = true`: helper identifying the event. -/
theorem dispatch_general_call (s : UiState) (e : UiEvent) (msgs : List ChatMsg)
    (h : ApiCall.getGeneralResponse msgs ∈ (dispatch s e).2) :
    s.showFallbackPrompt = true ∧ ∃ resp, e = UiEvent.fallbackClick true resp := by
  cases e with
  | setInput v => simp [dispatch] at h
  | switchMode m => simp [dispatch] at h
  | removeFile => simp [dispatch] at h
  | fileSelected f isPdf result =>
    by_cases hg : (s.mode == ChatMode.document_upload && s.uploadedFile == none) = true
    · cases isPdf <;> cases result <;> simp [dispatch, hg, handleFileUpload] at h
    · rw [Bool.not_eq_true] at hg; simp [dispatch, hg] at h
  | sendClick resp =>
    by_cases hd : sendDisabled s = true
    · simp [dispatch, hd] at h
    · rw [Bool.not_eq_true] at hd
      simp only [dispatch, hd, Bool.false_eq_true, if_false] at h
      unfold send at h
      split at h
      · simp at h
      · split at h
        · cases resp <;> simp at h
        · cases resp with
          | ok reply =>
            by_cases hl : lowConfidence reply = true
            · simp [hl] at h
            · rw [Bool.not_eq_true] at hl; simp [hl] at h
          | error e => simp at h
  | fallbackClick useGeneral resp =>
    by_cases hp : s.showFallbackPrompt = true
    · cases useGeneral with
      | true => exact ⟨hp, resp, rfl⟩
      | false =>
        simp only [dispatch, hp, if_true] at h
        unfold handleFallbackChoice at h
        dsimp only at h
        cases resp with
        | ok reply =>
          by_cases hc : (reply.content != "") = true
          · simp [hc] at h
          · rw [Bool.not_eq_true] at hc; simp [hc] at h
        | error e => simp at h
    · rw [Bool.not_eq_true] at hp; simp [dispatch, hp] at h

/-! ### The claims -/

/-- Claim C3: the retrieval flow never invokes the general-completion
path on its own initiative.  Any `getGeneralResponse` call issued by a
`ChatUI` step arises from the caller clicking the accept button of the
visible fallback prompt, and that click issues exactly the one
general-response call with the pending question re-appended; in
particular `send` (the automatic flow after a low-confidence score)
never issues it. -/
theorem general_response_only_on_caller_accept :
    (∀ (s : UiState) (e : UiEvent) (msgs : List ChatMsg),
      ApiCall.getGeneralResponse msgs ∈ (dispatch s e).2 →
        s.showFallbackPrompt = true ∧ ∃ resp, e = UiEvent.fallbackClick true resp) ∧
    (∀ (s : UiState) (resp : Except String ChatMsg) (msgs : List ChatMsg),
      ApiCall.getGeneralResponse msgs ∉ (dispatch s (UiEvent.sendClick resp)).2) ∧
    (∀ (s : UiState) (resp : Except String ChatMsg), s.showFallbackPrompt = true →
      (dispatch s (UiEvent.fallbackClick true resp)).2 =
        [ApiCall.getGeneralResponse
          (s.messages ++ [{ role := "user", content := s.pendingQuestion }])]) := by
  refine ⟨dispatch_general_call, ?_, ?_⟩
  · intro s resp msgs h
    obtain ⟨-, r, he⟩ := dispatch_general_call s _ msgs h
    exact UiEvent.noConfusion he
  · intro s resp hp
    simp only [dispatch, hp, if_true]
    unfold handleFallbackChoice
    cases resp <;> rfl

/-- Claim C3 witness: a concrete accept click on a shown fallback
prompt is the (only) event shape that issues a general-response call. -/
theorem general_response_only_on_caller_accept_witness :
    wFallbackState.showFallbackPrompt = true ∧
    ∃ resp, UiEvent.fallbackClick true (Except.ok { role := "assistant", content := "g" }) =
      UiEvent.fallbackClick true resp :=
  general_response_only_on_caller_accept.1 wFallbackState
    (UiEvent.fallbackClick true (Except.ok { role := "assistant", content := "g" }))
    [{ role := "user", content := "q" }] (by decide)

/-- Claim C8: when the caller declines the general fallback, a
re-queried knowledge-base reply with non-empty content is shown with
the disclaimer prepended to its content (all other reply fields kept),
and an empty reply is replaced by the fixed not-found message tagged
source `knowledge_base`. -/
theorem fallback_decline_disclaimer (s : UiState) (reply : ChatMsg)
    (hprompt : s.showFallbackPrompt = true) :
    (reply.content ≠ "" →
      (dispatch s (UiEvent.fallbackClick false (Except.ok reply))).1.messages =
        s.messages ++ [{ reply with content := disclaimerText ++ reply.content }]) ∧
    (reply.content = "" →
      (dispatch s (UiEvent.fallbackClick false (Except.ok reply))).1.messages =
        s.messages ++ [kbNotFoundMsg] ∧
      kbNotFoundMsg.source = some Source.knowledge_base) := by
  constructor
  · intro hc
    simp [dispatch, hprompt, handleFallbackChoice, hc]
  · intro hc
    refine ⟨?_, rfl⟩
    simp [dispatch, hprompt, handleFallbackChoice, hc]

/-- Claim C8 witness: declining the fallback on a concrete non-empty
low-confidence match prepends the disclaimer. -/
theorem fallback_decline_disclaimer_witness :
    (dispatch wFallbackState (UiEvent.fallbackClick false (Except.ok wReply))).1.messages =
      wFallbackState.messages ++ [{ wReply with content := disclaimerText ++ wReply.content }] :=
  (fallback_decline_disclaimer wFallbackState wReply rfl).1 (by decide)

/-- Claim C10: in document-upload mode a document-scoped chat request
is never issued without a truthy uploaded document id: any
`chatWithDocument` call carries the id currently installed by a
successful upload, the send control is disabled (a no-op) in
document-upload mode while no id is installed, and along any trace
from the initial state every `chatWithDocument` call's id was returned
by a successful PDF upload of that trace. -/
theorem chatWithDocument_requires_uploaded_id :
    (∀ (s : UiState) (e : UiEvent) (id : String) (msgs : List ChatMsg),
      ApiCall.chatWithDocument id msgs ∈ (dispatch s e).2 →
        s.uploadedDocumentId = some id ∧ id ≠ "" ∧ s.mode = ChatMode.document_upload) ∧
    (∀ (s : UiState) (resp : Except String ChatMsg),
      s.mode = ChatMode.document_upload → s.uploadedDocumentId = none →
      dispatch s (UiEvent.sendClick resp) = (s, [])) ∧
    (∀ (events : List UiEvent) (id : String) (msgs : List ChatMsg),
      ApiCall.chatWithDocument id msgs ∈ (runTrace initState events).2 →
        id ∈ uploadedIdsOf events) := by
  refine ⟨dispatch_call_id, ?_, ?_⟩
  · intro s resp hmode hid
    have hdis : sendDisabled s = true := by
      simp [sendDisabled, hmode, hid, truthyOptStr]
    simp [dispatch, hdis]
  · intro events id msgs h
    rcases runTrace_chatWithDocument events initState id msgs h with h' | h'
    · simp [initState] at h'
    · exact h'

/-- Claim C10 witness: in a concrete trace the one `chatWithDocument`
call carries the id `"d1"` that the successful upload returned. -/
theorem chatWithDocument_requires_uploaded_id_witness :
    "d1" ∈ uploadedIdsOf wUploadEvents :=
  chatWithDocument_requires_uploaded_id.2.2 wUploadEvents "d1"
    [uploadSuccessMsg "f.pdf" { id := "d1", chunks_count := 3, total_pages := 2 },
     { role := "user", content := "hi" }] (by decide)

/-- Claim C1: a document of the store appears in the public search
result if and only if its status is approved (and it matches the
query; an empty query matches every approved document), and every
returned row stems from an approved document — no pending or rejected
document is ever returned. -/
theorem search_visible_iff_approved
    (fts : String → String → Bool) (rank : String → String → Rat)
    (store : List KnowledgeDoc) (q : String)
    (hids : (store.map (fun d => d.id)).Nodup) :
    (∀ d ∈ store,
      (∃ r ∈ search_knowledge_documents fts rank store q, r.id = d.id) ↔
        (d.status = Status.approved ∧ (q = "" ∨ fts (tsDocText d) q = true))) ∧
    (∀ r ∈ search_knowledge_documents fts rank store q,
      ∃ d ∈ store, d.status = Status.approved ∧ r.id = d.id) := by
  have hwhere : ∀ d : KnowledgeDoc, searchWhere fts q d = true ↔
      (d.status = Status.approved ∧ (q = "" ∨ fts (tsDocText d) q = true)) := by
    intro d
    simp [searchWhere]
  constructor
  · intro d hd
    constructor
    · rintro ⟨r, hr, hid⟩
      obtain ⟨d', hd', hw, hrow⟩ := (mem_search_iff fts rank store q r).1 hr
      have heq : d'.id = d.id := by rw [← hrow] at hid; exact hid
      have hdd : d' = d := List.inj_on_of_nodup_map hids hd' hd heq
      rw [← hdd]
      exact (hwhere d').1 hw
    · rintro ⟨happ, hq⟩
      exact ⟨rowOf rank q d,
        (mem_search_iff fts rank store q _).2 ⟨d, hd, (hwhere d).2 ⟨happ, hq⟩, rfl⟩, rfl⟩
  · intro r hr
    obtain ⟨d, hd, hw, hrow⟩ := (mem_search_iff fts rank store q r).1 hr
    exact ⟨d, hd, ((hwhere d).1 hw).1, by rw [← hrow]; rfl⟩

/-- Claim C1 witness: in a concrete store the approved document is
returned by an empty-query search and the pending one is not. -/
theorem search_visible_iff_approved_witness :
    (∃ r ∈ search_knowledge_documents (fun _ _ => true) (fun _ _ => 0) wStore "",
      r.id = wApprovedDoc.id) ∧
    ¬ (∃ r ∈ search_knowledge_documents (fun _ _ => true) (fun _ _ => 0) wStore "",
      r.id = wPendingDoc.id) := by
  constructor
  · exact ((search_visible_iff_approved (fun _ _ => true) (fun _ _ => 0) wStore ""
      (by decide)).1 wApprovedDoc (by simp [wStore])).2 ⟨rfl, Or.inl rfl⟩
  · intro h
    have := ((search_visible_iff_approved (fun _ _ => true) (fun _ _ => 0) wStore ""
      (by decide)).1 wPendingDoc (by simp [wStore])).1 h
    exact absurd this.1 (by decide)

/-- Claim C4: moderation is transition-once.  With an admin actor and
an existing document, the first `moderate` from `pending` succeeds and
installs the terminal status of the action, and on the resulting store
any subsequent `moderate` of the same id by any admin, with any
action, fails with `InvalidState`; a `moderate` of a document not in
`pending` fails with `InvalidState` (no transition out of a terminal
status). -/
theorem moderate_transition_once
    (store : List KnowledgeDoc) (id : String) (act : MAction)
    (actor : Identity) (now : Nat) (d : KnowledgeDoc)
    (hadmin : actor.role = Role.admin)
    (hfind : store.find? (fun x => x.id == id) = some d) :
    (d.status = Status.pending →
      ∃ store' d', moderate store id act actor now = .ok (store', d') ∧
        d'.status = act.toStatus ∧ act.toStatus ≠ Status.pending ∧
        ∀ (act' : MAction) (actor' : Identity) (now' : Nat),
          actor'.role = Role.admin →
          moderate store' id act' actor' now' = .error ApiError.InvalidState) ∧
    (d.status ≠ Status.pending →
      moderate store id act actor now = .error ApiError.InvalidState) := by
  have hid0 := List.find?_some hfind
  have hid : (d.id == id) = true := hid0
  have hane : ¬ actor.role ≠ Role.admin := by simp [hadmin]
  constructor
  · intro hp
    have hpne : ¬ d.status ≠ Status.pending := by simp [hp]
    have hmod : moderate store id act actor now =
        .ok (store.map fun x => if x.id == id then moderatedDoc d act actor now else x,
             moderatedDoc d act actor now) := by
      unfold moderate
      rw [if_neg hane, hfind]
      dsimp only
      rw [if_neg hpne]
    have hterm : act.toStatus ≠ Status.pending := by
      cases act <;> simp [MAction.toStatus]
    refine ⟨_, _, hmod, rfl, hterm, ?_⟩
    intro act' actor' now' hadmin'
    have hg : ∀ x : KnowledgeDoc, (x.id == id) = true →
        ((((fun _ : KnowledgeDoc => moderatedDoc d act actor now)) x).id == id) = true := by
      intro x hx
      exact hid
    have hfind' : (store.map fun x =>
        if x.id == id then moderatedDoc d act actor now else x).find?
        (fun x => x.id == id) = some (moderatedDoc d act actor now) := by
      rw [find?_map_ite (fun x => x.id == id)
        (fun _ => moderatedDoc d act actor now) hg store, hfind]
      rfl
    have hterm2 : (moderatedDoc d act actor now).status ≠ Status.pending := by
      show act.toStatus ≠ Status.pending
      exact hterm
    unfold moderate
    rw [if_neg (by simp [hadmin']), hfind']
    dsimp only
    rw [if_pos hterm2]
  · intro hnp
    unfold moderate
    rw [if_neg hane, hfind]
    dsimp only
    rw [if_pos hnp]

/-- Claim C4 witness: moderating a concrete pending document succeeds
once, and a second admin moderation with any action is rejected with
`InvalidState`. -/
theorem moderate_transition_once_witness :
    ∃ store' d', moderate [wPendingDoc] "doc-1" MAction.approved wAdmin 5 = .ok (store', d') ∧
      d'.status = MAction.approved.toStatus ∧ MAction.approved.toStatus ≠ Status.pending ∧
      ∀ (act' : MAction) (actor' : Identity) (now' : Nat),
        actor'.role = Role.admin →
        moderate store' "doc-1" act' actor' now' = .error ApiError.InvalidState :=
  (moderate_transition_once [wPendingDoc] "doc-1" MAction.approved wAdmin 5 wPendingDoc
    rfl (by decide)).1 rfl

/-- Claim C6: fetching one document increments its `view_count` by
exactly 1 if and only if the caller may see it (approved, or requester
admin or author): on a permitted fetch the result is the same document
with `view_count + 1` and all other fields unchanged, the store is
rewritten only at that id (other documents stay), a non-permitted
fetch fails without touching the store, and the search / pending-list
operations never change the store (hence never increment any view
counter). -/
theorem get_increments_view_count_iff_permitted
    (store : List KnowledgeDoc) (id : String) (req : Option Identity)
    (d : KnowledgeDoc)
    (hfind : store.find? (fun x => x.id == id) = some d) :
    (canView d req = true →
      getDocument store id req =
        .ok ({ d with view_count := d.view_count + 1 }, increment_view_count store id) ∧
      (increment_view_count store id).find? (fun x => x.id == id) =
        some { d with view_count := d.view_count + 1 } ∧
      ∀ x ∈ store, (x.id == id) = false → x ∈ increment_view_count store id) ∧
    (canView d req = false → getDocument store id req = .error ApiError.NotFound) ∧
    (∀ (fts : String → String → Bool) (rank : String → String → Rat)
        (q : String) (page per_page : Nat),
      (knowledgeSearchOp fts rank store q page per_page).2 = store) ∧
    (listPendingOp store).2 = store := by
  refine ⟨?_, ?_, fun fts rank q page per_page => rfl, rfl⟩
  · intro hv
    refine ⟨?_, ?_, ?_⟩
    · unfold getDocument
      rw [hfind]
      dsimp only
      rw [if_pos hv]
    · have hg : ∀ x : KnowledgeDoc, (x.id == id) = true →
          (((fun y : KnowledgeDoc => { y with view_count := y.view_count + 1 }) x).id == id)
            = true := fun x hx => hx
      unfold increment_view_count
      rw [find?_map_ite (fun x => x.id == id)
        (fun y => { y with view_count := y.view_count + 1 }) hg store, hfind]
      rfl
    · intro x hx hpx
      exact mem_map_ite_of_neg (fun y => y.id == id)
        (fun y => { y with view_count := y.view_count + 1 }) store x hx hpx
  · intro hv
    unfold getDocument
    rw [hfind]
    dsimp only
    rw [if_neg (by simp [hv])]

/-- Claim C6 witness: an anonymous fetch of a concrete approved
document succeeds and bumps exactly its view counter. -/
theorem get_increments_view_count_iff_permitted_witness :
    getDocument wStore "doc-2" none =
      .ok ({ wApprovedDoc with view_count := wApprovedDoc.view_count + 1 },
        increment_view_count wStore "doc-2") :=
  ((get_increments_view_count_iff_permitted wStore "doc-2" none wApprovedDoc
    (by decide)).1 (by decide)).1

/-- Claim C7: an empty query matches exactly the approved documents;
for every query the search result is ordered by relevance descending
with creation time descending breaking ties (newer first on equal
rank); on an empty corpus the paginated search returns an empty item
list with total 0. -/
theorem search_order_and_empty
    (fts : String → String → Bool) (rank : String → String → Rat) :
    (∀ (store : List KnowledgeDoc) (r : SearchRow),
      r ∈ search_knowledge_documents fts rank store "" ↔
        ∃ d ∈ store, d.status = Status.approved ∧ rowOf rank "" d = r) ∧
    (∀ (store : List KnowledgeDoc) (q : String),
      (search_knowledge_documents fts rank store q).Pairwise
        (fun a b => b.relevance < a.relevance ∨
          (a.relevance = b.relevance ∧ b.created_at ≤ a.created_at))) ∧
    (∀ (q : String) (page per_page : Nat),
      (knowledgeSearch fts rank [] q page per_page).items = [] ∧
      (knowledgeSearch fts rank [] q page per_page).total = 0 ∧
      (knowledgeSearch fts rank [] q page per_page).total_pages = 0) := by
  refine ⟨?_, ?_, ?_⟩
  · intro store r
    rw [mem_search_iff]
    constructor
    · rintro ⟨d, hd, hw, hrow⟩
      refine ⟨d, hd, ?_, hrow⟩
      simpa [searchWhere] using hw
    · rintro ⟨d, hd, happ, hrow⟩
      exact ⟨d, hd, by simp [searchWhere, happ], hrow⟩
  · intro store q
    have h := List.sorted_mergeSort rowLe_trans rowLe_total
      ((store.filter (searchWhere fts q)).map (rowOf rank q))
    unfold search_knowledge_documents
    exact h.imp (fun hab => (rowLe_iff _ _).1 hab)
  · intro q page per_page
    have hrows : search_knowledge_documents fts rank [] q = [] := by
      simp [search_knowledge_documents]
    have hpp : 0 < max 1 (min per_page 100) :=
      lt_of_lt_of_le one_pos (le_max_left _ _)
    refine ⟨?_, ?_, ?_⟩
    · simp [knowledgeSearch, hrows]
    · simp [knowledgeSearch, hrows]
    · simp only [knowledgeSearch, hrows, List.length_nil, Nat.zero_add]
      exact Nat.div_eq_of_lt (Nat.sub_lt hpp one_pos)

/-- Claim C2 counterexample: at a best-match similarity score of
exactly 0.7 the claim requires non-empty content, but the reply
generator (which compares with strict `>`) returns empty content. -/
theorem chatKnowledgeBase_threshold_cex :
    (7 : Rat)/10 ≥ (7 : Rat)/10 ∧
    (chatKnowledgeBase [] ((7 : Rat)/10)).content = "" := by
  refine ⟨le_refl _, ?_⟩
  simp [chatKnowledgeBase]

/-- Claim C2 (amended): a knowledge-base chat reply has non-empty
content when the similarity score is strictly greater than 0.7, and
when the score is less than or equal to 0.7 it has empty content,
carries the measured score, and has no citations. -/
theorem chatKnowledgeBase_threshold (messages : List ChatMsg) (score : Rat) :
    ((7 : Rat)/10 < score → (chatKnowledgeBase messages score).content ≠ "") ∧
    (score ≤ (7 : Rat)/10 →
      (chatKnowledgeBase messages score).content = "" ∧
      (chatKnowledgeBase messages score).similarity_score = some score ∧
      (chatKnowledgeBase messages score).citations = []) := by
  constructor
  · intro h
    simp only [chatKnowledgeBase, if_pos h]
    intro hc
    have hlen := congrArg String.length hc
    rw [String.length_append, String.length_append] at hlen
    have h1 : 0 < ("Based on our knowledge base: \"" : String).length := by decide
    simp only [String.length_empty] at hlen
    omega
  · intro h
    have hnot : ¬ ((7 : Rat)/10 < score) := not_lt.mpr h
    simp [chatKnowledgeBase, hnot]

/-- Claim C2 witness: a score of 0.8 yields a non-empty reply; a score
of 0.5 yields an empty one. -/
theorem chatKnowledgeBase_threshold_witness :
    (chatKnowledgeBase [] ((4 : Rat)/5)).content ≠ "" ∧
    (chatKnowledgeBase [] ((1 : Rat)/2)).content = "" :=
  ⟨(chatKnowledgeBase_threshold [] ((4 : Rat)/5)).1 (by norm_num),
   ((chatKnowledgeBase_threshold [] ((1 : Rat)/2)).2 (by norm_num)).1⟩

/-- Claim C5 counterexample: the request-tracking `json` variant,
given a 401 response, makes no re-attempt at all — a single fetch,
then the session-expired error — so the repository's client request
layer does not always retry once after refreshing credentials on an
authorization failure. -/
theorem retry_policy_cex :
    (json_tracking (FetchOutcome.response 401 (Except.ok (0 : Nat)) "") 5000
      "/knowledge/search").fetches = 1 ∧
    (json_tracking (FetchOutcome.response 401 (Except.ok (0 : Nat)) "") 5000
      "/knowledge/search").result =
      Except.error "Your session has expired. Please log in again." :=
  ⟨rfl, rfl⟩

/-- Claim C5 (amended): the `frontend/lib/api.ts` `json` helper
performs exactly one silent re-attempt, after exactly one credential
refresh, if and only if the first response is a 401, and makes exactly
one fetch in every other case (no other automatic retries); the
request-tracking variant never re-attempts. -/
theorem retry_policy {T : Type} (o1 o2 : FetchOutcome T) (timeoutMs : Nat)
    (path : String) :
    ((json_fetch o1 o2 timeoutMs path).fetches = if is401 o1 then 2 else 1) ∧
    ((json_fetch o1 o2 timeoutMs path).refreshes = if is401 o1 then 1 else 0) ∧
    ((json_tracking o1 timeoutMs path).fetches = 1) := by
  rcases o1 with ⟨s, b, t⟩ | _ | e
  · by_cases h4 : (s == 401) = true
    · rcases o2 with ⟨s2, b2, t2⟩ | _ | e2 <;>
        simp only [json_fetch, json_tracking, is401, h4, if_pos, if_true] <;>
        (try split_ifs) <;> simp
    · rw [Bool.not_eq_true] at h4
      simp only [json_fetch, json_tracking, is401, h4, Bool.false_eq_true, if_false] <;>
        split_ifs <;> simp
  · simp [json_fetch, json_tracking, is401]
  · simp [json_fetch, json_tracking, is401]

/-- Claim C9: both `json` helpers are total in their error handling:
a value is returned only when some fetch produced a 2xx response whose
body parsed (the retry fetch only on the 401 path), an abort produces
exactly the `Request timed out after {timeoutMs}ms: {path}` error, and
the timeout timer is cleared on every exit path. -/
theorem json_total_error_handling {T : Type} (o1 o2 : FetchOutcome T)
    (timeoutMs : Nat) (path : String) :
    (∀ v : T, (json_fetch o1 o2 timeoutMs path).result = Except.ok v →
      ((∃ s text, o1 = FetchOutcome.response s (Except.ok v) text ∧ okStatus s = true) ∨
       (∃ b1 t1 s2 t2, o1 = FetchOutcome.response 401 b1 t1 ∧
         o2 = FetchOutcome.response s2 (Except.ok v) t2 ∧ okStatus s2 = true))) ∧
    (o1 = FetchOutcome.abortError →
      (json_fetch o1 o2 timeoutMs path).result =
        Except.error (timeoutMessage timeoutMs path)) ∧
    ((json_fetch o1 o2 timeoutMs path).timerCleared = true) ∧
    (∀ v : T, (json_tracking o1 timeoutMs path).result = Except.ok v →
      ∃ s text, o1 = FetchOutcome.response s (Except.ok v) text ∧ okStatus s = true) ∧
    (o1 = FetchOutcome.abortError →
      (json_tracking o1 timeoutMs path).result =
        Except.error (timeoutMessage timeoutMs path)) ∧
    ((json_tracking o1 timeoutMs path).timerCleared = true) := by
  refine ⟨?_, ?_, ?_, ?_, ?_, ?_⟩
  · intro v hv
    rcases o1 with ⟨s, b, t⟩ | _ | e
    · by_cases h4 : (s == 401) = true
      · rcases o2 with ⟨s2, b2, t2⟩ | _ | e2 <;>
          simp only [json_fetch, h4, if_pos, if_true] at hv
        · by_cases hok : okStatus s2 = true
          · rw [if_pos hok] at hv
            dsimp only at hv
            exact Or.inr ⟨b, t, s2, t2, by rw [beq_iff_eq.1 h4], by rw [hv], hok⟩
          · rw [Bool.not_eq_true] at hok
            rw [if_neg (by simp [hok])] at hv
            simp at hv
        · simp at hv
        · simp at hv
      · rw [Bool.not_eq_true] at h4
        simp only [json_fetch, h4, Bool.false_eq_true, if_false] at hv
        by_cases hok : okStatus s = true
        · rw [if_pos hok] at hv
          dsimp only at hv
          exact Or.inl ⟨s, t, by rw [hv], hok⟩
        · rw [Bool.not_eq_true] at hok
          rw [if_neg (by simp [hok])] at hv
          simp at hv
    · simp [json_fetch] at hv
    · simp [json_fetch] at hv
  · intro h1
    subst h1
    rfl
  · rcases o1 with ⟨s, b, t⟩ | _ | e
    · simp only [json_fetch]
      split_ifs <;> first | rfl | (rcases o2 with ⟨s2, b2, t2⟩ | _ | e2 <;> simp <;> split_ifs <;> rfl)
    · rfl
    · rfl
  · intro v hv
    rcases o1 with ⟨s, b, t⟩ | _ | e
    · by_cases h4 : (s == 401) = true
      · simp [json_tracking, h4] at hv
      · rw [Bool.not_eq_true] at h4
        simp only [json_tracking, h4, Bool.false_eq_true, if_false] at hv
        by_cases hok : okStatus s = true
        · rw [if_pos hok] at hv
          dsimp only at hv
          exact ⟨s, t, by rw [hv], hok⟩
        · rw [Bool.not_eq_true] at hok
          rw [if_neg (by simp [hok])] at hv
          simp at hv
    · simp [json_tracking] at hv
    · simp [json_tracking] at hv
  · intro h1
    subst h1
    rfl
  · rcases o1 with ⟨s, b, t⟩ | _ | e
    · simp only [json_tracking]
      split_ifs <;> rfl
    · rfl
    · rfl

/-- Claim C9 witness: a concrete 2xx response is returned as its
parsed body, and at a concrete abort the exact timeout message is
thrown. -/
theorem json_total_error_handling_witness :
    (∃ s text, (FetchOutcome.response 200 (Except.ok (5 : Nat)) "") =
      FetchOutcome.response s (Except.ok 5) text ∧ okStatus s = true) ∧
    (json_fetch (FetchOutcome.abortError : FetchOutcome Nat)
        FetchOutcome.abortError 15000 "/chat").result =
      Except.error (timeoutMessage 15000 "/chat") :=
  ⟨(json_total_error_handling (FetchOutcome.response 200 (Except.ok (5 : Nat)) "")
      FetchOutcome.abortError 15000 "/chat").2.2.2.1 5 rfl,
   (json_total_error_handling (FetchOutcome.abortError : FetchOutcome Nat)
      FetchOutcome.abortError 15000 "/chat").2.1 rfl⟩

end RareBridge
